import Mathlib

/-!
Shallow embedding of the Ride-Sharing Intelligence System (final.py).

Monetary amounts, ratings, distances and surge multipliers are modelled as
rationals; Python's `round(x, nd)` becomes `roundTo nd`.  Timestamps are
modelled as integers (minutes).  The five Mongo collections become five
lists inside a `DB` record.  All calls to `random.*` are modelled by
universally quantified draw records: a theorem about "every seeded ride"
quantifies over the draws, with the documented ranges as hypotheses where
needed.
-/

namespace RideShare

/-- Rounds a rational to `nd` decimal places, modelling Python `round(x, nd)`
restricted to the non-tie-sensitive uses in this program. -/
def roundTo (nd : ℕ) (q : ℚ) : ℚ :=
  ((round (q * (10 : ℚ) ^ nd) : ℤ) : ℚ) / (10 : ℚ) ^ nd

/-- Models Python `str.zfill`: left-pad with zeros up to width `w`. -/
def zfill (w : ℕ) (s : String) : String :=
  String.mk (List.replicate (w - s.length) '0') ++ s

/-- Driver status values used in final.py line 55. -/
inductive DriverStatus
  | available
  | busy
  | offline
deriving DecidableEq, Repr

/-- Ride status values used in final.py line 92. -/
inductive RideStatus
  | completed
  | in_progress
  | cancelled
  | pending
deriving DecidableEq, Repr

/-- Payment status values used in final.py line 115. -/
inductive PaymentStatus
  | paid
  | pending
deriving DecidableEq, Repr

/-- Pickup or dropoff location document (address plus coordinates). -/
structure Location where
  address : String
  lat : ℚ
  lng : ℚ
deriving DecidableEq, Repr

/-- Driver document, final.py lines 49-59. -/
structure Driver where
  driver_id : String
  name : String
  phone : String
  rating : ℚ
  total_rides : ℕ
  status : DriverStatus
  location_lat : ℚ
  location_lng : ℚ
  earnings_today : ℚ
  vehicle_id : String
deriving DecidableEq, Repr

/-- Rider document, final.py lines 66-74. -/
structure Rider where
  rider_id : String
  name : String
  phone : String
  rating : ℚ
  total_rides : ℕ
  payment_method : String
  wallet_balance : ℚ
deriving DecidableEq, Repr

/-- Vehicle document, final.py lines 82-88. -/
structure Vehicle where
  vehicle_id : String
  make : String
  model : String
  year : ℕ
  license_plate : String
  color : String
  capacity : ℕ
deriving DecidableEq, Repr

/-- Ride document, final.py lines 100-117 and 408-418.  `start_time`,
`end_time`, `duration_minutes` and `rating` are nullable. -/
structure Ride where
  ride_id : String
  driver_id : String
  rider_id : String
  pickup_location : Location
  dropoff_location : Location
  request_time : ℤ
  start_time : Option ℤ
  end_time : Option ℤ
  status : RideStatus
  distance_km : ℚ
  duration_minutes : Option ℕ
  base_fare : ℚ
  surge_multiplier : ℚ
  total_fare : ℚ
  payment_status : PaymentStatus
  rating : Option ℚ
deriving DecidableEq, Repr

/-- Surge-zone document, final.py lines 124-133. -/
structure SurgeZone where
  zone_id : String
  zone_name : String
  current_surge : ℚ
  demand_level : String
  available_drivers : ℕ
  active_requests : ℕ
  timestamp : ℤ
  avg_wait_time : ℕ
deriving DecidableEq, Repr

/-- The five Mongo collections of database `ride_demo`. -/
structure DB where
  drivers : List Driver
  riders : List Rider
  vehicles : List Vehicle
  rides : List Ride
  surge_pricing : List SurgeZone
deriving DecidableEq, Repr

/-- The database with all five collections empty. -/
def emptyDB : DB :=
  { drivers := [], riders := [], vehicles := [], rides := [], surge_pricing := [] }

/-! ### Seeding (final.py `initialize_database`, lines 41-138)

Each `random.*` call of the seeding code is replaced by a field of a draw
record; the generator functions below are otherwise literal translations. -/

/-- Random draws consumed when generating one driver. -/
structure DriverDraw where
  phone : ℕ
  rating : ℚ
  total_rides : ℕ
  status : DriverStatus
  lat : ℚ
  lng : ℚ
  earnings : ℚ

/-- Random draws consumed when generating one rider. -/
structure RiderDraw where
  phone : ℕ
  rating : ℚ
  total_rides : ℕ
  payment_method : String
  wallet_balance : ℚ

/-- Random draws consumed when generating one vehicle. -/
structure VehicleDraw where
  letter1 : Char
  letter2 : Char
  plate_num : ℕ
  color : String
  capacity : ℕ

/-- Random draws consumed when generating one seeded ride
(final.py lines 93-117). -/
structure RideDraw where
  hours_ago : ℕ
  duration : ℕ
  distance : ℚ
  base_extra : ℚ
  surge : ℚ
  status : RideStatus
  drv : ℕ
  rdr : ℕ
  pickup : Location
  dropoff : Location
  start_delay : ℕ
  rating : ℚ

/-- Random draws consumed when generating one surge zone. -/
structure ZoneDraw where
  zone_name : String
  surge : ℚ
  demand_level : String
  available_drivers : ℕ
  active_requests : ℕ
  avg_wait_time : ℕ

/-- All randomness consumed by one run of the seeding operation, plus the
current wall-clock time. -/
structure SeedDraw where
  now : ℤ
  driver : ℕ → DriverDraw
  rider : ℕ → RiderDraw
  vehicle : ℕ → VehicleDraw
  ride : ℕ → RideDraw
  zone : ℕ → ZoneDraw

/-- Fixed driver-name pool, final.py line 46. -/
def driver_names : List String :=
  ["John Smith", "Emma Johnson", "Michael Brown", "Sarah Davis", "David Wilson",
   "Lisa Anderson", "James Taylor", "Maria Garcia", "Robert Martinez",
   "Jennifer Lopez", "William Clark", "Patricia White"]

/-- Fixed rider-name pool, final.py line 63. -/
def rider_names : List String :=
  ["Alice Cooper", "Bob Martin", "Charlie Evans", "Diana Prince", "Edward Norton",
   "Fiona Apple", "George Lucas", "Hannah Montana", "Ian McKellen",
   "Julia Roberts", "Kevin Hart", "Laura Palmer"]

/-- Fixed vehicle pool, final.py line 78. -/
def vehicle_data : List (String × String × ℕ) :=
  [("Toyota", "Camry", 2021), ("Honda", "Civic", 2022), ("Ford", "Fusion", 2020),
   ("Chevrolet", "Malibu", 2021), ("Nissan", "Altima", 2022),
   ("Hyundai", "Sonata", 2021), ("Kia", "Optima", 2020), ("Mazda", "Mazda6", 2021),
   ("Volkswagen", "Passat", 2022), ("Subaru", "Legacy", 2021),
   ("Tesla", "Model 3", 2023), ("BMW", "3 Series", 2022)]

/-- Generates the driver with 1-based index `i`, final.py lines 49-59. -/
def mkSeedDriver (i : ℕ) (name : String) (d : DriverDraw) : Driver :=
  { driver_id := "DRV" ++ zfill 3 (toString i)
    name := name
    phone := "+1-555-" ++ toString d.phone
    rating := roundTo 2 d.rating
    total_rides := d.total_rides
    status := d.status
    location_lat := roundTo 4 d.lat
    location_lng := roundTo 4 d.lng
    earnings_today := roundTo 2 d.earnings
    vehicle_id := "VEH" ++ zfill 3 (toString i) }

/-- Generates the rider with 1-based index `i`, final.py lines 66-74. -/
def mkSeedRider (i : ℕ) (name : String) (d : RiderDraw) : Rider :=
  { rider_id := "RDR" ++ zfill 3 (toString i)
    name := name
    phone := "+1-555-" ++ toString d.phone
    rating := roundTo 2 d.rating
    total_rides := d.total_rides
    payment_method := d.payment_method
    wallet_balance := roundTo 2 d.wallet_balance }

/-- Generates the vehicle with 1-based index `i`, final.py lines 82-88. -/
def mkSeedVehicle (i : ℕ) (mk : String × String × ℕ) (d : VehicleDraw) : Vehicle :=
  { vehicle_id := "VEH" ++ zfill 3 (toString i)
    make := mk.1
    model := mk.2.1
    year := mk.2.2
    license_plate := String.mk [d.letter1, d.letter2] ++ toString d.plate_num
    color := d.color
    capacity := d.capacity }

/-- Generates the seeded ride with 0-based index `i`, final.py lines 93-117.
`now` is `datetime.now()` in minutes; `start_time` in the Python code is the
request time, shifted by `hours_ago` hours into the past. -/
def mkSeedRide (now : ℤ) (i : ℕ) (d : RideDraw) : Ride :=
  let req_time : ℤ := now - 60 * (d.hours_ago : ℤ)
  let distance : ℚ := roundTo 2 d.distance
  let base_fare : ℚ := roundTo 2 (distance * (3 / 2) + d.base_extra)
  let surge_multiplier : ℚ := roundTo 1 d.surge
  { ride_id := "RIDE" ++ zfill 4 (toString (i + 1))
    driver_id := "DRV" ++ zfill 3 (toString d.drv)
    rider_id := "RDR" ++ zfill 3 (toString d.rdr)
    pickup_location := d.pickup
    dropoff_location := d.dropoff
    request_time := req_time
    start_time := some (req_time + (d.start_delay : ℤ))
    end_time := some (req_time + (d.duration : ℤ))
    status := d.status
    distance_km := distance
    duration_minutes := some d.duration
    base_fare := base_fare
    surge_multiplier := surge_multiplier
    total_fare := roundTo 2 (base_fare * surge_multiplier)
    payment_status := if d.status = RideStatus.completed then .paid else .pending
    rating := if d.status = RideStatus.completed then some (roundTo 1 d.rating) else none }

/-- Generates the surge zone with 0-based index `i`, final.py lines 124-133. -/
def mkSeedZone (now : ℤ) (i : ℕ) (d : ZoneDraw) : SurgeZone :=
  { zone_id := "ZONE" ++ zfill 2 (toString (i + 1))
    zone_name := d.zone_name
    current_surge := roundTo 1 d.surge
    demand_level := d.demand_level
    available_drivers := d.available_drivers
    active_requests := d.active_requests
    timestamp := now
    avg_wait_time := d.avg_wait_time }

/-- The 12 freshly generated drivers of one seed run. -/
def seedDrivers (d : SeedDraw) : List Driver :=
  driver_names.enum.map (fun p => mkSeedDriver (p.1 + 1) p.2 (d.driver (p.1 + 1)))

/-- The 12 freshly generated riders of one seed run. -/
def seedRiders (d : SeedDraw) : List Rider :=
  rider_names.enum.map (fun p => mkSeedRider (p.1 + 1) p.2 (d.rider (p.1 + 1)))

/-- The 12 freshly generated vehicles of one seed run. -/
def seedVehicles (d : SeedDraw) : List Vehicle :=
  vehicle_data.enum.map (fun p => mkSeedVehicle (p.1 + 1) p.2 (d.vehicle (p.1 + 1)))

/-- The 15 freshly generated rides of one seed run, final.py line 93. -/
def seedRides (d : SeedDraw) : List Ride :=
  (List.range 15).map (fun i => mkSeedRide d.now i (d.ride i))

/-- The 12 freshly generated surge zones of one seed run, final.py line 123. -/
def seedZones (d : SeedDraw) : List SurgeZone :=
  (List.range 12).map (fun i => mkSeedZone d.now i (d.zone i))

/-- Embeds `initialize_database` (final.py lines 41-138): every collection is
emptied by `delete_many` and then refilled with freshly generated records. -/
def seed_database (d : SeedDraw) (db : DB) : DB :=
  let cleared : DB :=
    { db with drivers := [], riders := [], vehicles := [], rides := [], surge_pricing := [] }
  { cleared with
    drivers := seedDrivers d
    riders := seedRiders d
    vehicles := seedVehicles d
    rides := seedRides d
    surge_pricing := seedZones d }

/-! ### Dashboard metrics (final.py `get_dashboard_metrics`, lines 141-152) -/

/-- Result record of `get_dashboard_metrics`. -/
@[ext]
structure Metrics where
  total_rides : ℕ
  active_drivers : ℕ
  total_revenue : ℚ
  avg_rating : ℚ
deriving DecidableEq, Repr

/-- Embeds `get_dashboard_metrics` (final.py lines 141-152), literal
translation of the four queries on the success path. -/
def get_dashboard_metrics (db : DB) : Metrics :=
  let completed_rides := db.rides.filter (fun r => r.status = RideStatus.completed)
  let rides_with_rating := db.rides.filter (fun r => r.rating ≠ none)
  { total_rides := db.rides.length
    active_drivers := (db.drivers.filter (fun d => d.status = DriverStatus.available)).length
    total_revenue := (completed_rides.map (fun r => r.total_fare)).sum
    avg_rating :=
      if rides_with_rating.isEmpty then 0
      else roundTo 2 ((rides_with_rating.map (fun r => r.rating.getD 0)).sum
                        / (rides_with_rating.length : ℚ)) }

/-- Written from the words of the specification of `dashboard_metrics`
(spec section 4.4), to be compared with `get_dashboard_metrics`: count of all
ride rows; count of available drivers; sum of `total_fare` over completed
rides; mean of the non-null ratings rounded to 2 decimals, 0 if none. -/
def dashboardMetricsSpec (db : DB) : Metrics :=
  let ratings := db.rides.filterMap (fun r => r.rating)
  { total_rides := db.rides.length
    active_drivers := (db.drivers.filter (fun d => d.status = DriverStatus.available)).length
    total_revenue := ((db.rides.filter (fun r => r.status = RideStatus.completed)).map
                        (fun r => r.total_fare)).sum
    avg_rating :=
      if ratings = [] then 0
      else roundTo 2 (ratings.sum / (ratings.length : ℚ)) }

/-! ### Ride creation (final.py page "Add New Ride", lines 380-428)

The Streamlit form widgets constrain their values: `st.number_input` for the
distance has `min_value=0.5`, the surge `st.slider` ranges over
`[1.0, 3.0]`, and the rider and driver come from `st.selectbox` over the
stored riders and the available drivers.  The embedding takes an arbitrary
submitted request and turns each widget constraint into a validation gate
that refuses (returns `none`) when violated, matching the page logic which
also returns without writing when there is no data or no available driver. -/

/-- One submitted ride-creation request (the form values of lines 389-403
plus the wall-clock time used for `request_time`). -/
structure RideRequest where
  rider_id : String
  driver_id : String
  pickup : Location
  dropoff : Location
  distance_km : ℚ
  surge : ℚ
  now : ℤ
deriving DecidableEq, Repr

/-- The new ride document built on submit, final.py lines 405-418.
`next_id` is `db.rides.count_documents({}) + 1`. -/
def mkNewRide (req : RideRequest) (next_id : ℕ) : Ride :=
  let base : ℚ := roundTo 2 (req.distance_km * (3 / 2) + 3)
  let total : ℚ := roundTo 2 (base * req.surge)
  { ride_id := "RIDE" ++ zfill 4 (toString next_id)
    driver_id := req.driver_id
    rider_id := req.rider_id
    pickup_location := req.pickup
    dropoff_location := req.dropoff
    request_time := req.now
    start_time := none
    end_time := none
    status := RideStatus.pending
    distance_km := req.distance_km
    duration_minutes := none
    base_fare := base
    surge_multiplier := req.surge
    total_fare := total
    payment_status := PaymentStatus.pending
    rating := none }

/-- The available drivers, final.py line 385
(`drivers_df[drivers_df["status"] == "available"]`). -/
def availableDrivers (db : DB) : List Driver :=
  db.drivers.filter (fun d => d.status = DriverStatus.available)

/-- Embeds the "Add New Ride" workflow (final.py lines 380-428): refuse when
drivers or riders are absent, when no driver is available, or when a widget
constraint is violated; otherwise insert exactly one new ride.  `none` means
the request was refused and nothing was written. -/
def addNewRide (db : DB) (req : RideRequest) : Option DB :=
  if db.drivers.isEmpty ∨ db.riders.isEmpty then none
  else if (availableDrivers db).isEmpty then none
  else if req.rider_id ∉ db.riders.map (fun r => r.rider_id) then none
  else if req.driver_id ∉ (availableDrivers db).map (fun d => d.driver_id) then none
  else if req.distance_km < 1 / 2 then none
  else if req.surge < 1 ∨ 3 < req.surge then none
  else some { db with rides := db.rides ++ [mkNewRide req (db.rides.length + 1)] }

/-! ### Top drivers (final.py line 299, `drivers_df.nlargest(5, "earnings_today")`)

Pandas `nlargest(n, col)` with the default `keep="first"` returns the first
`n` rows when ordered by the column descending, equal values kept in their
original row order.  The embedding decorates each driver with its original
index and sorts by the total order (earnings descending, then index
ascending), which is exactly that semantics. -/

/-- Sort order used by the `nlargest` model: larger earnings first, ties by
original position. -/
def earnBefore (p q : ℕ × Driver) : Prop :=
  q.2.earnings_today < p.2.earnings_today ∨
    (p.2.earnings_today = q.2.earnings_today ∧ p.1 ≤ q.1)

instance : DecidableRel earnBefore := fun p q => by
  unfold earnBefore; infer_instance

instance : IsTotal (ℕ × Driver) earnBefore where
  total p q := by
    rcases lt_trichotomy p.2.earnings_today q.2.earnings_today with h | h | h
    · exact Or.inr (Or.inl h)
    · rcases Nat.le_total p.1 q.1 with h2 | h2
      · exact Or.inl (Or.inr ⟨h, h2⟩)
      · exact Or.inr (Or.inr ⟨h.symm, h2⟩)
    · exact Or.inl (Or.inl h)

instance : IsTrans (ℕ × Driver) earnBefore where
  trans p q s hpq hqs := by
    rcases hpq with h1 | ⟨he1, hi1⟩
    · rcases hqs with h2 | ⟨he2, _⟩
      · exact Or.inl (h2.trans h1)
      · exact Or.inl (he2 ▸ h1)
    · rcases hqs with h2 | ⟨he2, hi2⟩
      · exact Or.inl (he1 ▸ h2)
      · exact Or.inr ⟨he1.trans he2, hi1.trans hi2⟩

/-- The index-decorated top-`k` list: original positions paired with the
drivers, sorted stably by earnings descending, first `k` kept. -/
def topDriversEnum (drivers : List Driver) (k : ℕ) : List (ℕ × Driver) :=
  (List.insertionSort earnBefore drivers.enum).take k

/-- Embeds `drivers_df.nlargest(k, "earnings_today")` from final.py line 299. -/
def top_drivers_by_earnings (drivers : List Driver) (k : ℕ) : List Driver :=
  (topDriversEnum drivers k).map Prod.snd

/-! ### Concrete sample values used by witnesses -/

/-- Sample location. -/
def sampleLoc : Location := { address := "123 Main Street", lat := 0, lng := 0 }

/-- Sample seeded-ride draw: a completed ride with rating draw 4. -/
def sampleRideDraw : RideDraw :=
  { hours_ago := 0, duration := 10, distance := 5, base_extra := 3, surge := 1,
    status := RideStatus.completed, drv := 1, rdr := 1, pickup := sampleLoc,
    dropoff := sampleLoc, start_delay := 2, rating := 4 }

/-- Sample available driver. -/
def sampleDriver : Driver :=
  { driver_id := "DRV001", name := "John Smith", phone := "+1-555-1000", rating := 5,
    total_rides := 0, status := DriverStatus.available, location_lat := 0,
    location_lng := 0, earnings_today := 100, vehicle_id := "VEH001" }

/-- Sample busy driver. -/
def sampleBusyDriver : Driver :=
  { sampleDriver with driver_id := "DRV002", status := DriverStatus.busy }

/-- Sample rider. -/
def sampleRider : Rider :=
  { rider_id := "RDR001", name := "Alice Cooper", phone := "+1-555-2000", rating := 5,
    total_rides := 0, payment_method := "PayPal", wallet_balance := 0 }

/-- Sample database: one available driver, one rider, nothing else. -/
def sampleDB : DB :=
  { drivers := [sampleDriver], riders := [sampleRider], vehicles := [], rides := [],
    surge_pricing := [] }

/-- Sample ride-creation request against `sampleDB`. -/
def sampleReq : RideRequest :=
  { rider_id := "RDR001", driver_id := "DRV001", pickup := sampleLoc,
    dropoff := sampleLoc, distance_km := 5, surge := 1, now := 0 }

/-! ### Helper lemmas -/

/-- Rounding to a fixed number of decimals is monotone. -/
theorem roundTo_mono (nd : ℕ) {a b : ℚ} (h : a ≤ b) : roundTo nd a ≤ roundTo nd b := by
  unfold roundTo
  have hp : (0 : ℚ) < (10 : ℚ) ^ nd := by positivity
  have hr : round (a * (10 : ℚ) ^ nd) ≤ round (b * (10 : ℚ) ^ nd) := by
    rw [round_eq, round_eq]
    exact Int.floor_mono
      (add_le_add_right (mul_le_mul_of_nonneg_right h hp.le) _)
  exact (div_le_div_iff_of_pos_right hp).mpr (by exact_mod_cast hr)

/-! ### Claim theorems -/

/-- C1: every ride record inserted into storage, whether produced by the seed
operation (any index and any random draws) or built by the ride-creation
workflow, has `total_fare = round(base_fare * surge_multiplier, 2)`. -/
theorem c1_total_fare_invariant :
    (∀ (now : ℤ) (i : ℕ) (d : RideDraw),
        (mkSeedRide now i d).total_fare
          = roundTo 2 ((mkSeedRide now i d).base_fare * (mkSeedRide now i d).surge_multiplier)) ∧
    (∀ (req : RideRequest) (n : ℕ),
        (mkNewRide req n).total_fare
          = roundTo 2 ((mkNewRide req n).base_fare * (mkNewRide req n).surge_multiplier)) :=
  ⟨fun _ _ _ => rfl, fun _ _ => rfl⟩

/-- C2: for every seeded ride whose rating draw lies in the documented range
`[3.5, 5.0]`: a non-completed ride has a null rating and pending payment,
while a completed ride has a non-null rating in `[3.5, 5.0]` and paid
payment. -/
theorem c2_seed_status_consistency (now : ℤ) (i : ℕ) (d : RideDraw)
    (hlo : (7 : ℚ) / 2 ≤ d.rating) (hhi : d.rating ≤ 5) :
    ((mkSeedRide now i d).status ≠ RideStatus.completed →
        (mkSeedRide now i d).rating = none ∧
        (mkSeedRide now i d).payment_status = PaymentStatus.pending) ∧
    ((mkSeedRide now i d).status = RideStatus.completed →
        ∃ r, (mkSeedRide now i d).rating = some r ∧ (7 : ℚ) / 2 ≤ r ∧ r ≤ 5 ∧
          (mkSeedRide now i d).payment_status = PaymentStatus.paid) := by
  constructor
  · intro hne
    have hd : d.status ≠ RideStatus.completed := hne
    simp [mkSeedRide, hd]
  · intro heq
    have hd : d.status = RideStatus.completed := heq
    refine ⟨roundTo 1 d.rating, ?_, ?_, ?_, ?_⟩
    · simp [mkSeedRide, hd]
    · have h1 : roundTo 1 ((7 : ℚ) / 2) = (7 : ℚ) / 2 := by
        norm_num [roundTo, round_eq]
      exact h1 ▸ roundTo_mono 1 hlo
    · have h2 : roundTo 1 (5 : ℚ) = 5 := by
        norm_num [roundTo, round_eq]
      exact h2 ▸ roundTo_mono 1 hhi
    · simp [mkSeedRide, hd]

/-- C2 witness: the theorem applied to a concrete completed seeded ride whose
rating draw is 4. -/
theorem c2_seed_status_consistency_witness :
    ((7 : ℚ) / 2 ≤ (4 : ℚ) ∧ (4 : ℚ) ≤ 5) ∧
    (((mkSeedRide 0 0 sampleRideDraw).status ≠ RideStatus.completed →
        (mkSeedRide 0 0 sampleRideDraw).rating = none ∧
        (mkSeedRide 0 0 sampleRideDraw).payment_status = PaymentStatus.pending) ∧
     ((mkSeedRide 0 0 sampleRideDraw).status = RideStatus.completed →
        ∃ r, (mkSeedRide 0 0 sampleRideDraw).rating = some r ∧ (7 : ℚ) / 2 ≤ r ∧ r ≤ 5 ∧
          (mkSeedRide 0 0 sampleRideDraw).payment_status = PaymentStatus.paid)) :=
  ⟨⟨by norm_num, by norm_num⟩,
   c2_seed_status_consistency 0 0 sampleRideDraw (by norm_num [sampleRideDraw])
     (by norm_num [sampleRideDraw])⟩

/-- C5: every ride built by the creation workflow has
`base_fare = round(distance_km * 1.5 + 3.0, 2)` and
`total_fare = round(base_fare * surge, 2)`; in particular distance 5.0 with
surge 1.0 gives base fare 10.5 and total fare 10.5. -/
theorem c5_creation_fare_formula :
    (∀ (req : RideRequest) (n : ℕ),
        (mkNewRide req n).base_fare = roundTo 2 (req.distance_km * (3 / 2) + 3) ∧
        (mkNewRide req n).total_fare
          = roundTo 2 ((mkNewRide req n).base_fare * req.surge)) ∧
    roundTo 2 ((5 : ℚ) * (3 / 2) + 3) = 21 / 2 ∧
    roundTo 2 ((21 : ℚ) / 2 * 1) = 21 / 2 := by
  refine ⟨fun _ _ => ⟨rfl, rfl⟩, ?_, ?_⟩ <;> norm_num [roundTo, round_eq]

/-- C7: seeding twice in a row leaves each collection with exactly the
freshly generated count (12 drivers, 12 riders, 12 vehicles, 15 rides,
12 surge zones); indeed the second seed completely overwrites the first. -/
theorem c7_reseed_no_duplication :
    ∀ (db : DB) (d1 d2 : SeedDraw),
      (seed_database d2 (seed_database d1 db)).drivers.length = 12 ∧
      (seed_database d2 (seed_database d1 db)).riders.length = 12 ∧
      (seed_database d2 (seed_database d1 db)).vehicles.length = 12 ∧
      (seed_database d2 (seed_database d1 db)).rides.length = 15 ∧
      (seed_database d2 (seed_database d1 db)).surge_pricing.length = 12 ∧
      seed_database d2 (seed_database d1 db) = seed_database d2 db := by
  intro db d1 d2
  refine ⟨?_, ?_, ?_, ?_, ?_, rfl⟩ <;>
    simp [seed_database, seedDrivers, seedRiders, seedVehicles, seedRides, seedZones,
      driver_names, rider_names, vehicle_data]

/-- Projecting the non-null ratings via `filter` then `getD` agrees with
`filterMap`. -/
theorem rating_filter_map_eq (l : List Ride) :
    (l.filter (fun r => r.rating ≠ none)).map (fun r => r.rating.getD 0)
      = l.filterMap (fun r => r.rating) := by
  induction l with
  | nil => rfl
  | cons r t ih =>
    have ih2 := ih
    simp only [ne_eq, decide_not] at ih2
    cases hr : r.rating with
    | none => simp [List.filter_cons, List.filterMap_cons, hr, ih2]
    | some v => simp [List.filter_cons, List.filterMap_cons, hr, ih2]

/-- C3: `get_dashboard_metrics` returns the count of all rides, the count of
available drivers, the completed-rides revenue and the rounded mean rating as
the specification describes them, and on the empty dataset it returns all
zeros (no division by zero). -/
theorem c3_dashboard_metrics :
    (∀ db : DB, get_dashboard_metrics db = dashboardMetricsSpec db) ∧
    get_dashboard_metrics emptyDB
      = { total_rides := 0, active_drivers := 0, total_revenue := 0, avg_rating := 0 } := by
  constructor
  · intro db
    have hmap := rating_filter_map_eq db.rides
    have hlen : (db.rides.filter (fun r => r.rating ≠ none)).length
        = (db.rides.filterMap (fun r => r.rating)).length := by
      rw [← hmap, List.length_map]
    ext
    · rfl
    · rfl
    · rfl
    show (if (db.rides.filter (fun r => r.rating ≠ none)).isEmpty then (0 : ℚ)
          else roundTo 2
            (((db.rides.filter (fun r => r.rating ≠ none)).map (fun r => r.rating.getD 0)).sum
              / ((db.rides.filter (fun r => r.rating ≠ none)).length : ℚ)))
        = (if db.rides.filterMap (fun r => r.rating) = [] then (0 : ℚ)
          else roundTo 2 ((db.rides.filterMap (fun r => r.rating)).sum
              / ((db.rides.filterMap (fun r => r.rating)).length : ℚ)))
    by_cases hnil : db.rides.filterMap (fun r => r.rating) = []
    · have hfil : db.rides.filter (fun r => r.rating ≠ none) = [] := by
        have h0 := hmap
        rw [hnil] at h0
        exact List.map_eq_nil_iff.mp h0
      rw [hfil, hnil]
      simp
    · have hfil : ¬ (db.rides.filter (fun r => r.rating ≠ none)).isEmpty = true := by
        intro hc
        exact hnil (by rw [← hmap, List.isEmpty_iff.mp hc]; rfl)
      rw [if_neg hfil, if_neg hnil, hmap, hlen]
  · rfl

/-- C4: a successful ride-creation request appends exactly the new ride
whose id is `RIDE` plus the zero-padded ride count + 1, with pending status,
null `start_time`, `end_time`, `duration_minutes` and `rating`, and pending
payment. -/
theorem c4_new_ride_shape (db : DB) (req : RideRequest) (db2 : DB)
    (h : addNewRide db req = some db2) :
    db2.rides = db.rides ++ [mkNewRide req (db.rides.length + 1)] ∧
    (mkNewRide req (db.rides.length + 1)).ride_id
      = "RIDE" ++ zfill 4 (toString (db.rides.length + 1)) ∧
    (mkNewRide req (db.rides.length + 1)).status = RideStatus.pending ∧
    (mkNewRide req (db.rides.length + 1)).start_time = none ∧
    (mkNewRide req (db.rides.length + 1)).end_time = none ∧
    (mkNewRide req (db.rides.length + 1)).duration_minutes = none ∧
    (mkNewRide req (db.rides.length + 1)).rating = none ∧
    (mkNewRide req (db.rides.length + 1)).payment_status = PaymentStatus.pending := by
  unfold addNewRide at h
  repeat' split at h
  any_goals exact Option.noConfusion h
  have h2 := Option.some.inj h
  subst h2
  exact ⟨rfl, rfl, rfl, rfl, rfl, rfl, rfl, rfl⟩

/-- C4 witness: the theorem applied to the sample database and request. -/
theorem c4_new_ride_shape_witness :
    addNewRide sampleDB sampleReq = some { sampleDB with rides := [mkNewRide sampleReq 1] } ∧
    ({ sampleDB with rides := [mkNewRide sampleReq 1] } : DB).rides
      = sampleDB.rides ++ [mkNewRide sampleReq (sampleDB.rides.length + 1)] :=
  ⟨by norm_num [addNewRide, availableDrivers, sampleDB, sampleReq, sampleDriver, sampleRider],
   (c4_new_ride_shape sampleDB sampleReq _
     (by norm_num [addNewRide, availableDrivers, sampleDB, sampleReq, sampleDriver,
       sampleRider])).1⟩

/-- C6: when no stored driver has status `available`, the ride-creation
workflow refuses the request; the refusal value `none` writes nothing, so all
stored state is untouched. -/
theorem c6_refuses_without_available_drivers (db : DB) (req : RideRequest)
    (hall : ∀ d ∈ db.drivers, d.status ≠ DriverStatus.available) :
    addNewRide db req = none := by
  have hav : availableDrivers db = [] := by
    unfold availableDrivers
    exact List.filter_eq_nil_iff.mpr (by intro a ha; simpa using hall a ha)
  unfold addNewRide
  split
  · rfl
  · simp [hav]

/-- C6 witness: the theorem applied to a database whose only driver is busy. -/
theorem c6_refuses_without_available_drivers_witness :
    (∀ d ∈ ({ sampleDB with drivers := [sampleBusyDriver] } : DB).drivers,
        d.status ≠ DriverStatus.available) ∧
    addNewRide { sampleDB with drivers := [sampleBusyDriver] } sampleReq = none :=
  ⟨by decide,
   c6_refuses_without_available_drivers { sampleDB with drivers := [sampleBusyDriver] }
     sampleReq (by decide)⟩

/-- C9: a ride-creation request with a non-positive distance is refused (the
distance widget enforces a minimum of 0.5), so nothing is written. -/
theorem c9_refuses_nonpositive_distance (db : DB) (req : RideRequest)
    (hd : req.distance_km ≤ 0) :
    addNewRide db req = none := by
  unfold addNewRide
  repeat' split
  any_goals rfl
  exfalso
  have hge : ¬ req.distance_km < 1 / 2 := by assumption
  exact hge (lt_of_le_of_lt hd (by norm_num))

/-- C9 witness: the theorem applied to a request with distance 0. -/
theorem c9_refuses_nonpositive_distance_witness :
    ({ sampleReq with distance_km := 0 } : RideRequest).distance_km ≤ 0 ∧
    addNewRide sampleDB { sampleReq with distance_km := 0 } = none :=
  ⟨by decide,
   c9_refuses_nonpositive_distance sampleDB { sampleReq with distance_km := 0 } (by decide)⟩

/-- C10: a successful ride creation appends exactly one ride and leaves the
drivers, riders, vehicles and surge collections unchanged; in particular the
assigned driver is still stored with status `available` afterwards. -/
theorem c10_creation_frame (db : DB) (req : RideRequest) (db2 : DB)
    (h : addNewRide db req = some db2) :
    db2.drivers = db.drivers ∧ db2.riders = db.riders ∧ db2.vehicles = db.vehicles ∧
    db2.surge_pricing = db.surge_pricing ∧
    db2.rides = db.rides ++ [mkNewRide req (db.rides.length + 1)] ∧
    ∃ drv ∈ db2.drivers, drv.driver_id = req.driver_id ∧
      drv.status = DriverStatus.available := by
  unfold addNewRide at h
  repeat' split at h
  any_goals exact Option.noConfusion h
  have hmem : ¬ req.driver_id ∉ (availableDrivers db).map (fun d => d.driver_id) := by
    assumption
  have h2 := Option.some.inj h
  subst h2
  refine ⟨rfl, rfl, rfl, rfl, rfl, ?_⟩
  obtain ⟨drv, hdrvmem, hdrvid⟩ := List.mem_map.mp (not_not.mp hmem)
  have h3 := List.mem_filter.mp hdrvmem
  exact ⟨drv, h3.1, hdrvid, by simpa using h3.2⟩

/-- C10 witness: the theorem applied to the sample database and request. -/
theorem c10_creation_frame_witness :
    addNewRide sampleDB sampleReq = some { sampleDB with rides := [mkNewRide sampleReq 1] } ∧
    ({ sampleDB with rides := [mkNewRide sampleReq 1] } : DB).drivers = sampleDB.drivers :=
  ⟨by norm_num [addNewRide, availableDrivers, sampleDB, sampleReq, sampleDriver, sampleRider],
   (c10_creation_frame sampleDB sampleReq _
     (by norm_num [addNewRide, availableDrivers, sampleDB, sampleReq, sampleDriver,
       sampleRider])).1⟩

/-- C8: `top_drivers_by_earnings drivers 5` has exactly `min 5 (number of
drivers)` entries, is sorted descending by `earnings_today`, and breaks ties
between equal earnings by the original driver order: in the index-decorated
result, equal earnings force strictly increasing original indices, and every
decorated entry really is the driver at that original position. -/
theorem c8_top_drivers_by_earnings (drivers : List Driver) :
    (top_drivers_by_earnings drivers 5).length = min 5 drivers.length ∧
    (top_drivers_by_earnings drivers 5).Pairwise
      (fun a b => b.earnings_today ≤ a.earnings_today) ∧
    (topDriversEnum drivers 5).Pairwise
      (fun p q => p.2.earnings_today = q.2.earnings_today → p.1 < q.1) ∧
    ∀ p ∈ topDriversEnum drivers 5, drivers[p.1]? = some p.2 := by
  have hperm : List.Perm (List.insertionSort earnBefore drivers.enum) drivers.enum :=
    List.perm_insertionSort _ _
  have hsorted : (List.insertionSort earnBefore drivers.enum).Pairwise earnBefore :=
    List.sorted_insertionSort earnBefore drivers.enum
  have htakes : List.Sublist (topDriversEnum drivers 5)
      (List.insertionSort earnBefore drivers.enum) :=
    List.take_sublist _ _
  have htake : (topDriversEnum drivers 5).Pairwise earnBefore :=
    List.Pairwise.sublist htakes hsorted
  refine ⟨?_, ?_, ?_, ?_⟩
  · simp [top_drivers_by_earnings, topDriversEnum, List.length_insertionSort]
  · refine List.Pairwise.map Prod.snd ?_ htake
    rintro p q (hlt | ⟨heq, _⟩)
    · exact hlt.le
    · exact heq.ge
  · have hfst : (List.insertionSort earnBefore drivers.enum).Pairwise
        (fun p q => p.1 ≠ q.1) := by
      have hnodup : ((List.insertionSort earnBefore drivers.enum).map Prod.fst).Nodup :=
        ((hperm.map Prod.fst).nodup_iff).mpr
          (by rw [List.enum_map_fst]; exact List.nodup_range _)
      exact List.pairwise_map.mp hnodup
    refine List.Pairwise.sublist htakes ((hsorted.and hfst).imp ?_)
    rintro p q ⟨hlt | ⟨_, hle⟩, hne⟩ heq
    · exact absurd hlt (by rw [heq]; exact lt_irrefl _)
    · exact lt_of_le_of_ne hle hne
  · intro p hp
    have hmem : p ∈ drivers.enum := hperm.subset (htakes.subset hp)
    exact List.mem_enum_iff_getElem?.mp hmem

/-- C8 witness: the decorated-entry clause of the theorem applied to the
one-driver list at its only entry. -/
theorem c8_top_drivers_by_earnings_witness :
    ((0, sampleDriver) ∈ topDriversEnum [sampleDriver] 5) ∧
    [sampleDriver][(0 : ℕ)]? = some sampleDriver :=
  ⟨List.Mem.head _,
   (c8_top_drivers_by_earnings [sampleDriver]).2.2.2 (0, sampleDriver) (List.Mem.head _)⟩

end RideShare
